import Mathlib

/-!
Verification of the CPU execution engine of a RISC-V (RV64GC) emulator.

The development shallowly embeds the functions of src/src/cpu.c that the
claims below depend on: the integer executors, the LR/SC pair, the Sv39
address translator, the trap engine, the fetch stage and the per-tick trap
tail.  64-bit machine words are represented as `Nat` values, reduced modulo
`2 ^ 64` at every store into the register file or a CSR, exactly where the
C code's `uint64_t` width applies.  Signed C arithmetic is represented on
`Int` through the `toInt64` / `ofInt64` coercions (gcc's reduce-modulo-2^N
conversion rule, which the C source documents itself as relying on).

Two pieces of the repository are declared but not present under src/
(`cpu.h`, `csr.c` and `bus.c`): the privilege-mode and exception-cause
encodings, the CSR bank and the byte-granular bus.  Those are modelled from
the specification and are marked as such on their definitions.
-/

namespace RV

/-- Modelled from the spec: the exception taxonomy of cpu.h (absent from
src/); the cause numbers follow the RISC-V ISA, as §7 of the spec states. -/
inductive Exception where
  | NoException
  | InstructionAddressMisaligned
  | InstructionAccessFault
  | IllegalInstruction
  | Breakpoint
  | LoadAddressMisaligned
  | LoadAccessFault
  | StoreAMOAddressMisaligned
  | StoreAMOAccessFault
  | EnvironmentCallFromUMode
  | EnvironmentCallFromSMode
  | EnvironmentCallFromMMode
  | InstructionPageFault
  | LoadPageFault
  | StoreAMOPageFault
  deriving DecidableEq, Repr

/-- Modelled from the spec: ISA cause numbers ("numbers follow the ISA").
`NoException` is given the out-of-range sentinel 64; the trap engine is
never entered with a clean exception slot. -/
def excCode : Exception → Nat
  | .NoException => 64
  | .InstructionAddressMisaligned => 0
  | .InstructionAccessFault => 1
  | .IllegalInstruction => 2
  | .Breakpoint => 3
  | .LoadAddressMisaligned => 4
  | .LoadAccessFault => 5
  | .StoreAMOAddressMisaligned => 6
  | .StoreAMOAccessFault => 7
  | .EnvironmentCallFromUMode => 8
  | .EnvironmentCallFromSMode => 9
  | .EnvironmentCallFromMMode => 11
  | .InstructionPageFault => 12
  | .LoadPageFault => 13
  | .StoreAMOPageFault => 15

/-- Trap outcome classification returned by `handle_exception`. -/
inductive Trap where
  | Fatal
  | Requested
  | Invisible
  deriving DecidableEq, Repr

/-- Modelled from the spec: privilege-mode encoding of cpu.h (absent from
src/), following the ISA: user 0, supervisor 1, machine 3. -/
def USER : Nat := 0

def SUPERVISOR : Nat := 1

def MACHINE : Nat := 3

/-- Access type handed to the MMU, from cpu.c `addr_translate`. -/
inductive Access where
  | Access_Instr
  | Access_Load
  | Access_Store
  deriving DecidableEq, Repr

/-- Pending synchronous exception slot `(kind, value)` of the hart state. -/
structure ExcSlot where
  exception : Exception
  value : Nat
  deriving DecidableEq, Repr

/-- Modelled from the spec: the bus consumed by the core (bus.c is absent
from src/).  `mem a` is the word stored at byte address `a` (reads are
truncated to the requested size), `valid a` tells whether `a` is mapped;
out-of-range accesses raise an access fault, as §6 of the spec requires. -/
structure Bus where
  mem : Nat → Nat
  valid : Nat → Bool

/-- Decoded-instruction record (the fields the claims depend on). -/
structure Instr where
  instr : Nat
  opcode : Nat
  rs1 : Nat
  rs2 : Nat
  rd : Nat
  imm : Nat

/-- Hart state: registers, pc, privilege mode, exception slot, CSR bank,
load reservation, bus, current decoded instruction. -/
structure Cpu where
  xreg : Nat → Nat
  pc : Nat
  mode : Nat
  exc : ExcSlot
  csr : Nat → Nat
  reservation : Nat
  bus : Bus
  instr : Instr

/-- CSR indices (ISA-standard addresses; cpu.h is absent from src/). -/
def SSTATUS : Nat := 0x100

def SEDELEG : Nat := 0x102

def SIDELEG : Nat := 0x103

def STVEC : Nat := 0x105

def SEPC : Nat := 0x141

def SCAUSE : Nat := 0x142

def STVAL : Nat := 0x143

def SATP : Nat := 0x180

def MSTATUS : Nat := 0x300

def MEDELEG : Nat := 0x302

def MTVEC : Nat := 0x305

def MEPC : Nat := 0x341

def MCAUSE : Nat := 0x342

def MTVAL : Nat := 0x343

/-- Status-register bit masks used by the trap engine (cpu.h values). -/
def MSTATUS_MPRV : Nat := 1 <<< 17

def MSTATUS_MIE : Nat := 1 <<< 3

def MSTATUS_MPIE : Nat := 1 <<< 7

def MSTATUS_MPP : Nat := 3 <<< 11

def SSTATUS_SIE : Nat := 1 <<< 1

def SSTATUS_SPIE : Nat := 1 <<< 5

def SSTATUS_SPP : Nat := 1 <<< 8

def SATP_PPN : Nat := 2 ^ 44 - 1

/-- Bitwise complement over the 64-bit word width (C `~mask` on uint64). -/
def compl64 (mask : Nat) : Nat := (2 ^ 64 - 1) ^^^ mask

/-- Conversion uint64 → int64 (gcc reduce-modulo-2^64 view). -/
def toInt64 (v : Nat) : Int :=
  if v % 2 ^ 64 < 2 ^ 63 then (v % 2 ^ 64 : Nat) else (v % 2 ^ 64 : Nat) - 2 ^ 64

/-- Conversion int64 (or any C signed value) → uint64, reducing mod 2^64. -/
def ofInt64 (i : Int) : Nat := (i % 2 ^ 64).toNat

/-- Conversion of the low 32 bits of a word to int32 (C `(int32_t)`). -/
def toInt32 (v : Nat) : Int :=
  if v % 2 ^ 32 < 2 ^ 31 then (v % 2 ^ 32 : Nat) else (v % 2 ^ 32 : Nat) - 2 ^ 32

/-- Sign extension of the low `w` bits of `v` into a 64-bit word. -/
def sext (w v : Nat) : Nat :=
  if v % 2 ^ w < 2 ^ (w - 1) then v % 2 ^ w else v % 2 ^ w + (2 ^ 64 - 2 ^ w)

/-- Register write `cpu->xreg[i] = v` (64-bit store). -/
def setx (c : Cpu) (i v : Nat) : Cpu :=
  { c with xreg := fun j => if j = i then v % 2 ^ 64 else c.xreg j }

/-- Modelled from the spec: csr.c is absent from src/.  The bank is a map
from 12-bit index to a 64-bit word; the registers used by the claims below
(satp, medeleg, sedeleg, the trap CSRs and the status registers) are
modelled with identity masks — the sstatus-as-view-of-mstatus projection
does not affect any claim settled here. -/
def read_csr (c : Cpu) (i : Nat) : Nat := c.csr i

/-- CSR write (see `read_csr` for the modelling note). -/
def write_csr (c : Cpu) (i v : Nat) : Cpu :=
  { c with csr := fun j => if j = i then v % 2 ^ 64 else c.csr j }

/-- csr.c helper `set_csr_bits`. -/
def set_csr_bits (c : Cpu) (i mask : Nat) : Cpu :=
  write_csr c i (read_csr c i ||| mask)

/-- csr.c helper `clear_csr_bits`. -/
def clear_csr_bits (c : Cpu) (i mask : Nat) : Cpu :=
  write_csr c i (read_csr c i &&& compl64 mask)

/-- csr.c helper `check_csr_bit`. -/
def check_csr_bit (c : Cpu) (i mask : Nat) : Bool :=
  read_csr c i &&& mask ≠ 0

/-- Modelled from the spec: `read(addr, size_bits, out exc)` of the bus
contract; a read of an unmapped address raises an access fault (recorded in
the slot with the faulting address) and returns all-ones, which cpu.c
asserts on every failed read. -/
def read_bus (bus : Bus) (addr size : Nat) (exc : ExcSlot) : Nat × ExcSlot :=
  if bus.valid addr then (bus.mem addr % 2 ^ size, exc)
  else (2 ^ 64 - 1, ⟨.LoadAccessFault, addr⟩)

/-- Modelled from the spec: `write(addr, size_bits, value, out exc)` of the
bus contract; a write to an unmapped address raises a store access fault
and reports failure. -/
def write_bus (bus : Bus) (addr size value : Nat) (exc : ExcSlot) :
    Bool × Bus × ExcSlot :=
  if bus.valid addr then
    (true, { bus with mem := fun a => if a = addr then value % 2 ^ size else bus.mem a }, exc)
  else (false, bus, ⟨.StoreAMOAccessFault, addr⟩)

/-- Sv39 PTE fields, as `sv39_pte_new` of cpu.c extracts them. -/
structure Sv39PTE where
  v : Nat
  r : Nat
  w : Nat
  x : Nat
  ppn : Nat

/-- cpu.c `sv39_pte_new`: field extraction from a raw 64-bit PTE. -/
def sv39_pte_new (val : Nat) : Sv39PTE :=
  { v := val % 2, r := (val >>> 1) % 2, w := (val >>> 2) % 2,
    x := (val >>> 3) % 2, ppn := (val >>> 10) &&& SATP_PPN }

/-- Result of the Sv39 table-walk loop of `addr_translate`. -/
inductive WalkRes where
  | fault (exc : ExcSlot)
  | pageFault
  | leaf (i : Nat) (pte : Sv39PTE)

/-- The walk loop of `addr_translate` (steps 2–4 of the translation
process): reads the PTE at `a + vpn[i]*8`, bails out on a bus fault,
faults on an invalid PTE, stops on a leaf, otherwise descends a level. -/
def pt_walk (bus : Bus) (exc : ExcSlot) (vpn : Nat → Nat) : Nat → Nat → WalkRes
  | a, i =>
    let r := read_bus bus (a + vpn i * 8) 64 exc
    if r.2.exception ≠ .NoException then .fault r.2
    else
      let pte := sv39_pte_new r.1
      if pte.v = 0 ∨ (pte.r = 0 ∧ pte.w = 1) then .pageFault
      else if pte.r = 1 ∨ pte.x = 1 then .leaf i pte
      else
        match i with
        | 0 => .pageFault
        | j + 1 => pt_walk bus exc vpn (pte.ppn <<< 12) j

/-- The page-fault exception matching the access type (the
`translate_fail` label of cpu.c). -/
def pageFaultFor : Access → Exception
  | .Access_Instr => .InstructionPageFault
  | .Access_Load => .LoadPageFault
  | .Access_Store => .StoreAMOPageFault

/-- Raise a page fault for `acc` with the faulting virtual address. -/
def transFail (c : Cpu) (addr : Nat) (acc : Access) : Cpu :=
  { c with exc := ⟨pageFaultFor acc, addr⟩ }

/-- The superpage-alignment loop of cpu.c step 6:
`for (idx = i - 1; idx > 0; idx--) if (ppn[idx] != 0) fail` — it inspects
chunk indices from `i - 1` down to `1` (the `idx > 0` bound), so chunk 0 is
never inspected. -/
def misalignedChunks (ppn : Nat → Nat) : Nat → Bool
  | 0 => false
  | 1 => false
  | n + 2 => decide (ppn (n + 1) ≠ 0) || misalignedChunks ppn (n + 1)

/-- cpu.c `addr_translate`: Sv39 translation of `addr` for access `acc`,
returning the physical address and the possibly-updated hart state (only
the exception slot can change). -/
def addr_translate (c : Cpu) (addr : Nat) (acc : Access) : Nat × Cpu :=
  let satp := read_csr c SATP
  if satp >>> 60 ≠ 8 then (addr, c)
  else if c.mode = MACHINE ∧
      (acc = .Access_Instr ∨ check_csr_bit c MSTATUS MSTATUS_MPRV = false ∨
        read_csr c MSTATUS >>> 11 = MACHINE) then (addr, c)
  else
    let vpn : Nat → Nat := fun j => (addr >>> (12 + 9 * j)) % 512
    let a := (satp &&& SATP_PPN) <<< 12
    match pt_walk c.bus c.exc vpn a 2 with
    | .fault e => (2 ^ 64 - 1, { c with exc := e })
    | .pageFault => (2 ^ 64 - 1, transFail c addr acc)
    | .leaf i pte =>
      let permFail : Bool :=
        match acc with
        | .Access_Instr => pte.x == 0
        | .Access_Load => pte.r == 0
        | .Access_Store => pte.w == 0
      if permFail then (2 ^ 64 - 1, transFail c addr acc)
      else
        let ppn : Nat → Nat := fun j =>
          if j = 0 then pte.ppn % 512
          else if j = 1 then (pte.ppn >>> 9) % 512
          else (pte.ppn >>> 18) % 2 ^ 26
        if misalignedChunks ppn i then (2 ^ 64 - 1, transFail c addr acc)
        else
          let rppn : Nat → Nat := fun j => if j < i then vpn j else ppn j
          ((rppn 2 <<< 30) ||| (rppn 1 <<< 21) ||| (rppn 0 <<< 12) ||| (addr % 4096), c)

/-- cpu.c `read_cpu`: translate, then read through the bus. -/
def read_cpu (c : Cpu) (addr size : Nat) : Nat × Cpu :=
  let p := addr_translate c addr .Access_Load
  if p.2.exc.exception ≠ .NoException then (2 ^ 64 - 1, p.2)
  else
    let r := read_bus p.2.bus p.1 size p.2.exc
    (r.1, { p.2 with exc := r.2 })

/-- cpu.c `write_cpu`: translate, then write through the bus. -/
def write_cpu (c : Cpu) (addr size value : Nat) : Bool × Cpu :=
  let p := addr_translate c addr .Access_Store
  if p.2.exc.exception ≠ .NoException then (false, p.2)
  else
    let r := write_bus p.2.bus p.1 size value p.2.exc
    (r.1, { p.2 with bus := r.2.1, exc := r.2.2 })

/-- Effective address of the I-format loads: `xreg[rs1] + imm` (uint64). -/
def loadAddr (c : Cpu) : Nat := (c.xreg c.instr.rs1 + c.instr.imm) % 2 ^ 64

/-- cpu.c `instr_lb`. -/
def instr_lb (c : Cpu) : Cpu :=
  let p := read_cpu c (loadAddr c) 8
  if p.2.exc.exception ≠ .NoException then p.2
  else setx p.2 c.instr.rd (sext 8 p.1)

/-- cpu.c `instr_lh`. -/
def instr_lh (c : Cpu) : Cpu :=
  let p := read_cpu c (loadAddr c) 16
  if p.2.exc.exception ≠ .NoException then p.2
  else setx p.2 c.instr.rd (sext 16 p.1)

/-- cpu.c `instr_lw`. -/
def instr_lw (c : Cpu) : Cpu :=
  let p := read_cpu c (loadAddr c) 32
  if p.2.exc.exception ≠ .NoException then p.2
  else setx p.2 c.instr.rd (sext 32 p.1)

/-- cpu.c `instr_ld`. -/
def instr_ld (c : Cpu) : Cpu :=
  let p := read_cpu c (loadAddr c) 64
  if p.2.exc.exception ≠ .NoException then p.2
  else setx p.2 c.instr.rd p.1

/-- cpu.c `instr_lbu`. -/
def instr_lbu (c : Cpu) : Cpu :=
  let p := read_cpu c (loadAddr c) 8
  if p.2.exc.exception ≠ .NoException then p.2
  else setx p.2 c.instr.rd p.1

/-- cpu.c `instr_lhu`. -/
def instr_lhu (c : Cpu) : Cpu :=
  let p := read_cpu c (loadAddr c) 16
  if p.2.exc.exception ≠ .NoException then p.2
  else setx p.2 c.instr.rd p.1

/-- cpu.c `instr_lwu`. -/
def instr_lwu (c : Cpu) : Cpu :=
  let p := read_cpu c (loadAddr c) 32
  if p.2.exc.exception ≠ .NoException then p.2
  else setx p.2 c.instr.rd p.1

/-- cpu.c `instr_scw` (SC.W): store iff the reservation matches, write the
status to rd, and invalidate the reservation — except that a faulting store
returns early, before the invalidation line. -/
def instr_scw (c : Cpu) : Cpu :=
  let addr := c.xreg c.instr.rs1
  if c.reservation = addr then
    let p := write_cpu c addr 32 (c.xreg c.instr.rs2)
    if p.1 = false then p.2
    else { setx p.2 c.instr.rd 0 with reservation := 2 ^ 64 - 1 }
  else { setx c c.instr.rd 1 with reservation := 2 ^ 64 - 1 }

/-- cpu.c `instr_scd` (SC.D), same shape as `instr_scw` at width 64. -/
def instr_scd (c : Cpu) : Cpu :=
  let addr := c.xreg c.instr.rs1
  if c.reservation = addr then
    let p := write_cpu c addr 64 (c.xreg c.instr.rs2)
    if p.1 = false then p.2
    else { setx p.2 c.instr.rd 0 with reservation := 2 ^ 64 - 1 }
  else { setx c c.instr.rd 1 with reservation := 2 ^ 64 - 1 }

/-- cpu.c `instr_div` (signed 64-bit division with the divide-by-zero and
overflow special cases). -/
def instr_div (c : Cpu) : Cpu :=
  let dividend := toInt64 (c.xreg c.instr.rs1)
  let divisor := toInt64 (c.xreg c.instr.rs2)
  if divisor = 0 then setx c c.instr.rd (ofInt64 (-1))
  else if dividend = -(2 ^ 63) ∧ divisor = -1 then setx c c.instr.rd (ofInt64 dividend)
  else setx c c.instr.rd (ofInt64 (Int.tdiv dividend divisor))

/-- cpu.c `instr_rem`. -/
def instr_rem (c : Cpu) : Cpu :=
  let dividend := toInt64 (c.xreg c.instr.rs1)
  let divisor := toInt64 (c.xreg c.instr.rs2)
  if divisor = 0 then setx c c.instr.rd (ofInt64 dividend)
  else if dividend = -(2 ^ 63) ∧ divisor = -1 then setx c c.instr.rd 0
  else setx c c.instr.rd (ofInt64 (Int.tmod dividend divisor))

/-- cpu.c `instr_divw` (32-bit signed division, result sign-extended). -/
def instr_divw (c : Cpu) : Cpu :=
  let dividend := toInt32 (c.xreg c.instr.rs1)
  let divisor := toInt32 (c.xreg c.instr.rs2)
  if divisor = 0 then setx c c.instr.rd (ofInt64 (-1))
  else if dividend = -(2 ^ 31) ∧ divisor = -1 then setx c c.instr.rd (ofInt64 dividend)
  else setx c c.instr.rd (ofInt64 (Int.tdiv dividend divisor))

/-- cpu.c `instr_remw`. -/
def instr_remw (c : Cpu) : Cpu :=
  let dividend := toInt32 (c.xreg c.instr.rs1)
  let divisor := toInt32 (c.xreg c.instr.rs2)
  if divisor = 0 then setx c c.instr.rd (ofInt64 dividend)
  else if dividend = -(2 ^ 31) ∧ divisor = -1 then setx c c.instr.rd 0
  else setx c c.instr.rd (ofInt64 (Int.tmod dividend divisor))

/-- cpu.c `instr_sll`: `xreg[rd] = xreg[rs1] << xreg[rs2]` with NO masking
of the shift amount (unlike `instr_srl` / `instr_sra` below); a C shift by
64 or more is undefined behaviour, rendered here as the mathematical shift
reduced modulo 2^64. -/
def instr_sll (c : Cpu) : Cpu :=
  setx c c.instr.rd (c.xreg c.instr.rs1 <<< c.xreg c.instr.rs2)

/-- cpu.c `instr_srl`: shift amount is the low 6 bits of rs2. -/
def instr_srl (c : Cpu) : Cpu :=
  let shamt := c.xreg c.instr.rs2 &&& 0x3f
  setx c c.instr.rd ((c.xreg c.instr.rs1 % 2 ^ 64) >>> shamt)

/-- cpu.c `instr_sra`: shift amount is the low 6 bits of rs2; the source is
viewed as int64 and gcc's signed right shift sign-extends, i.e. floor
division by the power of two. -/
def instr_sra (c : Cpu) : Cpu :=
  let shamt := c.xreg c.instr.rs2 &&& 0x3f
  setx c c.instr.rd (ofInt64 (Int.fdiv (toInt64 (c.xreg c.instr.rs1)) (2 ^ shamt)))

/-- The decoded nzuimm of C.ADDI4SPN:
`nzuimm[5:4|9:6|2|3] = inst[12:11|10:7|6|5]`. -/
def caddi4spn_nzuimm (instr : Nat) : Nat :=
  ((instr >>> 1) &&& 0x3c0) ||| ((instr >>> 7) &&& 0x30) |||
    ((instr >>> 2) &&& 0x8) ||| ((instr >>> 4) &&& 0x4)

/-- cpu.c `instr_caddi4spn`: adds the scaled immediate to the stack pointer
when nzuimm is non-zero, and otherwise does nothing at all. -/
def instr_caddi4spn (c : Cpu) : Cpu :=
  let nzuimm := caddi4spn_nzuimm c.instr.instr
  if nzuimm ≠ 0 then setx c c.instr.rd (c.xreg 2 + nzuimm)
  else c

/-- cpu.c `instr_ecall`: records `pc - 4` in the exception value and raises
the environment call matching the current privilege mode. -/
def instr_ecall (c : Cpu) : Cpu :=
  let v := (c.pc + 2 ^ 64 - 4) % 2 ^ 64
  if c.mode = MACHINE then { c with exc := ⟨.EnvironmentCallFromMMode, v⟩ }
  else if c.mode = SUPERVISOR then { c with exc := ⟨.EnvironmentCallFromSMode, v⟩ }
  else if c.mode = USER then { c with exc := ⟨.EnvironmentCallFromUMode, v⟩ }
  else { c with exc := ⟨.IllegalInstruction, 0⟩ }

/-- The outcome-classification switch at the end of `handle_exception`
(classifies the pending exception into a trap outcome). -/
def exc_trap : Exception → Trap
  | .InstructionAddressMisaligned => .Fatal
  | .InstructionAccessFault => .Fatal
  | .IllegalInstruction => .Fatal
  | .Breakpoint => .Requested
  | .LoadAddressMisaligned => .Fatal
  | .LoadAccessFault => .Fatal
  | .StoreAMOAddressMisaligned => .Fatal
  | .StoreAMOAccessFault => .Fatal
  | .EnvironmentCallFromUMode => .Requested
  | .EnvironmentCallFromSMode => .Requested
  | .EnvironmentCallFromMMode => .Requested
  | .InstructionPageFault => .Invisible
  | .LoadPageFault => .Invisible
  | .StoreAMOPageFault => .Invisible
  | .NoException => .Fatal

/-- cpu.c `handle_exception`: pick the target privilege by walking the
delegation registers, perform the trap-entry CSR updates in that mode, and
return the outcome classification.  `none` models the `exit(1)` taken when
delegation designates user mode. -/
def handle_exception (c : Cpu) (exc_pc : Nat) : Option (Trap × Cpu) :=
  let prev_mode := c.mode
  let cause := excCode c.exc.exception
  let medeleg := read_csr c MEDELEG
  let c :=
    if (medeleg >>> cause) % 2 = 0 then { c with mode := MACHINE }
    else if (read_csr c SEDELEG >>> cause) % 2 = 0 then { c with mode := SUPERVISOR }
    else { c with mode := USER }
  if c.mode = SUPERVISOR then
    let c := { c with pc := read_csr c STVEC &&& compl64 0x3 }
    let c := write_csr c SEPC (exc_pc &&& compl64 0x1)
    let c := write_csr c SCAUSE cause
    let c := write_csr c STVAL c.exc.value
    let sstatus := read_csr c SSTATUS
    let c := write_csr c SSTATUS
      ((sstatus &&& compl64 SSTATUS_SPIE) ||| ((sstatus &&& SSTATUS_SIE) <<< 4))
    let c := clear_csr_bits c SSTATUS SSTATUS_SIE
    let sstatus2 := read_csr c SSTATUS
    let c := write_csr c SSTATUS
      ((sstatus2 &&& compl64 SSTATUS_SPP) ||| (prev_mode <<< 8))
    some (exc_trap c.exc.exception, c)
  else if c.mode = MACHINE then
    let c := { c with pc := read_csr c MTVEC &&& compl64 0x3 }
    let c := write_csr c MEPC (exc_pc &&& compl64 0x1)
    let c := write_csr c MCAUSE cause
    let c := write_csr c MTVAL c.exc.value
    let mstatus := read_csr c MSTATUS
    let c := write_csr c MSTATUS
      ((mstatus &&& compl64 MSTATUS_MPIE) ||| ((mstatus &&& MSTATUS_MIE) <<< 4))
    let c := clear_csr_bits c MSTATUS MSTATUS_MIE
    let mstatus2 := read_csr c MSTATUS
    let c := write_csr c MSTATUS
      ((mstatus2 &&& compl64 MSTATUS_MPP) ||| (prev_mode <<< 11))
    some (exc_trap c.exc.exception, c)
  else none

/-- cpu.c `fetch`: translate the pc, read a 32-bit word, reject the
all-zero halfword before decode, set the instruction record and advance the
pc by the instruction length. -/
def fetch (c : Cpu) : Bool × Cpu :=
  let p := addr_translate c c.pc .Access_Instr
  if p.2.exc.exception ≠ .NoException then (false, p.2)
  else
    let r := read_bus p.2.bus p.1 32 p.2.exc
    let c := { p.2 with exc := r.2 }
    if c.exc.exception ≠ .NoException then (false, c)
    else
      let instr := r.1
      if instr % 4 ≠ 3 then
        let instr := instr % 2 ^ 16
        if instr = 0 then (false, { c with exc := ⟨.IllegalInstruction, c.exc.value⟩ })
        else
          let c := { c with instr := { c.instr with instr := instr, opcode := instr % 4 } }
          (true, { c with pc := (c.pc + 2) % 2 ^ 64 })
      else
        let c := { c with instr := { c.instr with instr := instr, opcode := instr % 128 } }
        (true, { c with pc := (c.pc + 4) % 2 ^ 64 })

/-- The `get_trap` tail of cpu.c `tick_cpu`: when a step has failed, route
the exception through the trap engine; a `Fatal` outcome makes `tick_cpu`
return false (halting the driver loop), any other outcome resets the
exception slot and lets the loop continue. -/
def get_trap (c : Cpu) (instr_addr : Nat) : Option (Bool × Cpu) :=
  match handle_exception c instr_addr with
  | none => none
  | some (trap, c2) =>
    if trap = Trap.Fatal then some (false, c2)
    else some (true, { c2 with exc := ⟨.NoException, c2.exc.value⟩ })

/-! ### Frame lemmas: the MMU and the bus layer touch only the exception
slot (and, for writes, the bus), never the register file, the reservation
or the CSR bank. -/

theorem addr_translate_frame (c : Cpu) (a : Nat) (acc : Access) :
    (addr_translate c a acc).2.xreg = c.xreg ∧ (addr_translate c a acc).2.bus = c.bus ∧
    (addr_translate c a acc).2.reservation = c.reservation ∧
    (addr_translate c a acc).2.csr = c.csr ∧ (addr_translate c a acc).2.pc = c.pc ∧
    (addr_translate c a acc).2.instr = c.instr := by
  unfold addr_translate
  dsimp only
  repeat' split
  all_goals simp [transFail]

theorem read_cpu_frame (c : Cpu) (a s : Nat) :
    (read_cpu c a s).2.xreg = c.xreg ∧ (read_cpu c a s).2.bus = c.bus ∧
    (read_cpu c a s).2.reservation = c.reservation := by
  obtain ⟨h1, h2, h3, -, -, -⟩ := addr_translate_frame c a .Access_Load
  unfold read_cpu
  dsimp only
  split
  · exact ⟨h1, h2, h3⟩
  · exact ⟨h1, h2, h3⟩

theorem write_cpu_frame (c : Cpu) (a s v : Nat) :
    (write_cpu c a s v).2.xreg = c.xreg ∧ (write_cpu c a s v).2.reservation = c.reservation := by
  obtain ⟨h1, -, h3, -, -, -⟩ := addr_translate_frame c a .Access_Store
  unfold write_cpu
  dsimp only
  split
  · exact ⟨h1, h3⟩
  · exact ⟨h1, h3⟩

theorem write_cpu_false_exc (c : Cpu) (a s v : Nat)
    (hf : (write_cpu c a s v).1 = false) :
    (write_cpu c a s v).2.exc.exception ≠ .NoException := by
  unfold write_cpu write_bus at hf ⊢
  dsimp only at hf ⊢
  by_cases h : (addr_translate c a .Access_Store).2.exc.exception ≠ Exception.NoException
  · rw [if_pos h]
    exact h
  · rw [if_neg h] at hf ⊢
    by_cases hb : (addr_translate c a .Access_Store).2.bus.valid
        (addr_translate c a .Access_Store).1 = true
    · simp [hb] at hf
    · simp [hb]

/-! ### C7 — loads that fault leave the destination register untouched -/

/-- C7: for every load (LB, LH, LW, LD, LBU, LHU, LWU), if the address
translation or the bus read raises an exception, the register file is left
unchanged (in particular `xreg[rd]`) and the pending exception remains
surfaced in the exception slot. -/
theorem C7_loads_preserve_rd_on_fault (c : Cpu) :
    ((read_cpu c (loadAddr c) 8).2.exc.exception ≠ .NoException →
      (instr_lb c).xreg = c.xreg ∧ (instr_lb c).exc.exception ≠ .NoException ∧
      (instr_lbu c).xreg = c.xreg ∧ (instr_lbu c).exc.exception ≠ .NoException) ∧
    ((read_cpu c (loadAddr c) 16).2.exc.exception ≠ .NoException →
      (instr_lh c).xreg = c.xreg ∧ (instr_lh c).exc.exception ≠ .NoException ∧
      (instr_lhu c).xreg = c.xreg ∧ (instr_lhu c).exc.exception ≠ .NoException) ∧
    ((read_cpu c (loadAddr c) 32).2.exc.exception ≠ .NoException →
      (instr_lw c).xreg = c.xreg ∧ (instr_lw c).exc.exception ≠ .NoException ∧
      (instr_lwu c).xreg = c.xreg ∧ (instr_lwu c).exc.exception ≠ .NoException) ∧
    ((read_cpu c (loadAddr c) 64).2.exc.exception ≠ .NoException →
      (instr_ld c).xreg = c.xreg ∧ (instr_ld c).exc.exception ≠ .NoException) := by
  refine ⟨fun h => ?_, fun h => ?_, fun h => ?_, fun h => ?_⟩
  · unfold instr_lb instr_lbu
    rw [if_pos h, if_pos h]
    exact ⟨(read_cpu_frame c (loadAddr c) 8).1, h, (read_cpu_frame c (loadAddr c) 8).1, h⟩
  · unfold instr_lh instr_lhu
    rw [if_pos h, if_pos h]
    exact ⟨(read_cpu_frame c (loadAddr c) 16).1, h, (read_cpu_frame c (loadAddr c) 16).1, h⟩
  · unfold instr_lw instr_lwu
    rw [if_pos h, if_pos h]
    exact ⟨(read_cpu_frame c (loadAddr c) 32).1, h, (read_cpu_frame c (loadAddr c) 32).1, h⟩
  · unfold instr_ld
    rw [if_pos h]
    exact ⟨(read_cpu_frame c (loadAddr c) 64).1, h⟩

/-- A hart about to load from an unmapped bus address (the whole bus is
unmapped, translation is off). -/
def faultLoadCpu : Cpu :=
  { xreg := fun _ => 0, pc := 0, mode := MACHINE, exc := ⟨.NoException, 0⟩,
    csr := fun _ => 0, reservation := 0,
    bus := ⟨fun _ => 0, fun _ => false⟩, instr := ⟨0, 0, 1, 2, 5, 0⟩ }

/-- Witness for C7 at a concrete faulting load. -/
theorem C7_loads_preserve_rd_on_fault_witness :
    (instr_lb faultLoadCpu).xreg = faultLoadCpu.xreg ∧
    (instr_lb faultLoadCpu).exc.exception ≠ Exception.NoException :=
  ⟨((C7_loads_preserve_rd_on_fault faultLoadCpu).1 (by decide)).1,
   ((C7_loads_preserve_rd_on_fault faultLoadCpu).1 (by decide)).2.1⟩

/-! ### C2 — the misaligned-superpage check skips ppn chunk 0 -/

/-- A supervisor-mode hart with Sv39 on: the root PTE at 0x1000 points to a
second-level table at 0x2000, whose entry 0 is a readable megapage leaf
(level 1) with `pte.ppn[0] = 1 ≠ 0` — by the ISA (and by cpu.c's own step-6
comment) a misaligned superpage. -/
def megapageCpu : Cpu :=
  { xreg := fun _ => 0, pc := 0, mode := SUPERVISOR, exc := ⟨.NoException, 0⟩,
    csr := fun i => if i = SATP then (8 <<< 60) ||| 1 else 0, reservation := 0,
    bus := ⟨fun a => if a = 4096 then 2049 else if a = 8192 then 525315 else 0,
            fun _ => true⟩,
    instr := ⟨0, 0, 0, 0, 0, 0⟩ }

/-- C2 (code bug): the alignment loop of `addr_translate` runs
`for (idx = i - 1; idx > 0; idx--)`, so chunk 0 is never inspected — at a
level-1 leaf the check is vacuous, and the load walk above succeeds
(translating VA 0x1000 to 0x201000 by substituting `vpn[0]` for the
non-zero `pte.ppn[0]`) instead of raising `LoadPageFault` with the faulting
VA as the claim (and the C comment quoting the ISA's step 6) requires. -/
theorem C2_superpage_check_skips_chunk0 :
    (∀ p : Nat → Nat, misalignedChunks p 1 = false) ∧
    (addr_translate megapageCpu 4096 Access.Access_Load).1 = 2101248 ∧
    (addr_translate megapageCpu 4096 Access.Access_Load).2.exc.exception =
      Exception.NoException :=
  ⟨fun _ => rfl, by decide, by decide⟩

/-! ### C5 — SLL does not mask its shift amount (SRL and SRA do) -/

/-- Operands for the three 64-bit register-register shifts:
`rs1 = x1`, `rs2 = x2`, `rd = x3`. -/
def shiftCpu (a b : Nat) : Cpu :=
  { xreg := fun j => if j = 1 then a else if j = 2 then b else 0,
    pc := 0, mode := MACHINE, exc := ⟨.NoException, 0⟩, csr := fun _ => 0,
    reservation := 0, bus := ⟨fun _ => 0, fun _ => true⟩,
    instr := ⟨0, 0, 1, 2, 3, 0⟩ }

/-- C5 (code bug): `instr_srl` and `instr_sra` mask the shift amount to the
low 6 bits of rs2 (`65 &&& 0x3f = 1`) and SRA sign-extends from bit 63, as
the claim states; but `instr_sll` shifts by the raw 64-bit rs2 value —
`1 << 64` (undefined behaviour in C, 0 under the modulo-2^64 reading)
instead of the claimed `1 << (64 &&& 0x3f) = 1 << 0 = 1`. -/
theorem C5_shift_semantics :
    (instr_srl (shiftCpu 4 65)).xreg 3 = 2 ∧
    (instr_sra (shiftCpu (2 ^ 63) 1)).xreg 3 = 2 ^ 63 + 2 ^ 62 ∧
    (instr_sra (shiftCpu (2 ^ 63) 65)).xreg 3 = 2 ^ 64 - 2 ^ 62 ∧
    (instr_sll (shiftCpu 1 64)).xreg 3 = 0 := by
  refine ⟨by decide, by decide, by decide, by decide⟩

/-! ### C6 — C.ADDI4SPN with nzuimm = 0 is silently ignored -/

/-- The halfword 0x0004: quadrant 0, funct3 = 0 (C.ADDI4SPN), all nzuimm
bits clear, destination field pointing at x9. -/
def caddi4spnZeroCpu : Cpu :=
  { xreg := fun _ => 0, pc := 0, mode := MACHINE, exc := ⟨.NoException, 0⟩,
    csr := fun _ => 0, reservation := 0, bus := ⟨fun _ => 0, fun _ => true⟩,
    instr := ⟨4, 0, 0, 0, 9, 0⟩ }

/-- C6 counterexample: executing C.ADDI4SPN with decoded nzuimm = 0 does
NOT set the pending exception to `IllegalInstruction` — the executor's
`if (nzuimm != 0)` guard simply skips the register write and the exception
slot stays clean. -/
theorem C6_caddi4spn_zero_no_exception :
    (instr_caddi4spn caddi4spnZeroCpu).exc.exception = Exception.NoException ∧
    (instr_caddi4spn caddi4spnZeroCpu).xreg 9 = 0 := by
  refine ⟨by decide, by decide⟩

/-- C6 amended: a C.ADDI4SPN whose decoded nzuimm is zero leaves the hart
state completely unchanged — no register write and no exception. -/
theorem C6_caddi4spn_zero_noop (c : Cpu) (h : caddi4spn_nzuimm c.instr.instr = 0) :
    instr_caddi4spn c = c := by
  unfold instr_caddi4spn
  simp [h]

/-- Witness for the amended C6 at the concrete encoding 0x0004. -/
theorem C6_caddi4spn_zero_noop_witness :
    instr_caddi4spn caddi4spnZeroCpu = caddi4spnZeroCpu :=
  C6_caddi4spn_zero_noop caddi4spnZeroCpu (by decide)

/-! ### C4 — divide/remainder special cases -/

theorem setx_get (c : Cpu) (i v : Nat) : (setx c i v).xreg i = v % 2 ^ 64 := by
  simp [setx]

theorem pow64_lit : (2 : Nat) ^ 64 = 18446744073709551616 := by norm_num

theorem pow63_lit : (2 : Nat) ^ 63 = 9223372036854775808 := by norm_num

theorem pow32_lit : (2 : Nat) ^ 32 = 4294967296 := by norm_num

theorem pow31_lit : (2 : Nat) ^ 31 = 2147483648 := by norm_num

theorem pow64i_lit : (2 : Int) ^ 64 = 18446744073709551616 := by norm_num

theorem pow32i_lit : (2 : Int) ^ 32 = 4294967296 := by norm_num

theorem ofInt64_toInt64 (x : Nat) : ofInt64 (toInt64 x) = x % 2 ^ 64 := by
  unfold ofInt64 toInt64
  simp only [pow64_lit, pow63_lit, pow64i_lit]
  split <;> omega

theorem ofInt64_toInt32 (x : Nat) : ofInt64 (toInt32 x) = sext 32 x := by
  unfold ofInt64 toInt32 sext
  simp only [pow64_lit, pow63_lit, pow32_lit, pow31_lit, pow64i_lit, pow32i_lit,
    show (32 : Nat) - 1 = 31 from rfl]
  split <;> omega

theorem sext32_lt (x : Nat) : sext 32 x < 2 ^ 64 := by
  unfold sext
  simp only [pow64_lit, pow32_lit, pow31_lit, show (32 : Nat) - 1 = 31 from rfl]
  split <;> omega

/-- C4: DIV and REM with divisor 0 write all-ones and the dividend; with
dividend `INT64_MIN` and divisor −1 they write `INT64_MIN` and 0; DIVW and
REMW behave likewise on the low 32 bits with sign-extension of the result;
and none of the four executors ever touches the exception slot. -/
theorem C4_div_rem_special_cases (c : Cpu) :
    ((instr_div c).exc = c.exc ∧ (instr_rem c).exc = c.exc ∧
     (instr_divw c).exc = c.exc ∧ (instr_remw c).exc = c.exc) ∧
    (c.xreg c.instr.rs2 % 2 ^ 64 = 0 →
      (instr_div c).xreg c.instr.rd = 2 ^ 64 - 1 ∧
      (instr_rem c).xreg c.instr.rd = c.xreg c.instr.rs1 % 2 ^ 64) ∧
    (c.xreg c.instr.rs1 % 2 ^ 64 = 2 ^ 63 → c.xreg c.instr.rs2 % 2 ^ 64 = 2 ^ 64 - 1 →
      (instr_div c).xreg c.instr.rd = 2 ^ 63 ∧
      (instr_rem c).xreg c.instr.rd = 0) ∧
    (c.xreg c.instr.rs2 % 2 ^ 32 = 0 →
      (instr_divw c).xreg c.instr.rd = 2 ^ 64 - 1 ∧
      (instr_remw c).xreg c.instr.rd = sext 32 (c.xreg c.instr.rs1)) ∧
    (c.xreg c.instr.rs1 % 2 ^ 32 = 2 ^ 31 → c.xreg c.instr.rs2 % 2 ^ 32 = 2 ^ 32 - 1 →
      (instr_divw c).xreg c.instr.rd = 2 ^ 64 - 2 ^ 31 ∧
      (instr_remw c).xreg c.instr.rd = 0) := by
  refine ⟨⟨?_, ?_, ?_, ?_⟩, fun h => ⟨?_, ?_⟩, fun h1 h2 => ⟨?_, ?_⟩,
    fun h => ⟨?_, ?_⟩, fun h1 h2 => ⟨?_, ?_⟩⟩
  · unfold instr_div
    dsimp only
    repeat' split
    all_goals rfl
  · unfold instr_rem
    dsimp only
    repeat' split
    all_goals rfl
  · unfold instr_divw
    dsimp only
    repeat' split
    all_goals rfl
  · unfold instr_remw
    dsimp only
    repeat' split
    all_goals rfl
  · have hz : toInt64 (c.xreg c.instr.rs2) = 0 := by
      unfold toInt64
      rw [h]
      norm_num
    unfold instr_div
    rw [hz]
    norm_num [setx_get]
    decide
  · have hz : toInt64 (c.xreg c.instr.rs2) = 0 := by
      unfold toInt64
      rw [h]
      norm_num
    unfold instr_rem
    rw [hz]
    norm_num [setx_get, ofInt64_toInt64]
    try simp only [pow64_lit]
    try omega
  · have ha : toInt64 (c.xreg c.instr.rs1) = -(2 ^ 63) := by
      unfold toInt64
      rw [h1]
      decide
    have hb : toInt64 (c.xreg c.instr.rs2) = -1 := by
      unfold toInt64
      rw [h2]
      decide
    unfold instr_div
    rw [ha, hb]
    norm_num [setx_get]
    decide
  · have ha : toInt64 (c.xreg c.instr.rs1) = -(2 ^ 63) := by
      unfold toInt64
      rw [h1]
      decide
    have hb : toInt64 (c.xreg c.instr.rs2) = -1 := by
      unfold toInt64
      rw [h2]
      decide
    unfold instr_rem
    rw [ha, hb]
    norm_num [setx_get]
  · have hz : toInt32 (c.xreg c.instr.rs2) = 0 := by
      unfold toInt32
      rw [h]
      norm_num
    unfold instr_divw
    rw [hz]
    norm_num [setx_get]
    decide
  · have hz : toInt32 (c.xreg c.instr.rs2) = 0 := by
      unfold toInt32
      rw [h]
      norm_num
    unfold instr_remw
    rw [hz]
    norm_num [setx_get, ofInt64_toInt32]
    have hlt := sext32_lt (c.xreg c.instr.rs1)
    simp only [pow64_lit] at hlt ⊢
    omega
  · have ha : toInt32 (c.xreg c.instr.rs1) = -(2 ^ 31) := by
      unfold toInt32
      rw [h1]
      decide
    have hb : toInt32 (c.xreg c.instr.rs2) = -1 := by
      unfold toInt32
      rw [h2]
      decide
    unfold instr_divw
    rw [ha, hb]
    norm_num [setx_get]
    decide
  · have ha : toInt32 (c.xreg c.instr.rs1) = -(2 ^ 31) := by
      unfold toInt32
      rw [h1]
      decide
    have hb : toInt32 (c.xreg c.instr.rs2) = -1 := by
      unfold toInt32
      rw [h2]
      decide
    unfold instr_remw
    rw [ha, hb]
    norm_num [setx_get]

/-- Divider operands `x1 = a`, `x2 = b`, destination x3. -/
def divCpu (a b : Nat) : Cpu :=
  { xreg := fun j => if j = 1 then a else if j = 2 then b else 0,
    pc := 0, mode := MACHINE, exc := ⟨.NoException, 0⟩, csr := fun _ => 0,
    reservation := 0, bus := ⟨fun _ => 0, fun _ => true⟩,
    instr := ⟨0, 0, 1, 2, 3, 0⟩ }

/-- Witness for C4 at the concrete boundary operands of the spec: divide by
zero and `INT64_MIN / −1` (and the W overflow pair). -/
theorem C4_div_rem_special_cases_witness :
    (instr_div (divCpu 7 0)).xreg 3 = 2 ^ 64 - 1 ∧
    (instr_rem (divCpu 7 0)).xreg 3 = 7 ∧
    (instr_div (divCpu (2 ^ 63) (2 ^ 64 - 1))).xreg 3 = 2 ^ 63 ∧
    (instr_rem (divCpu (2 ^ 63) (2 ^ 64 - 1))).xreg 3 = 0 ∧
    (instr_divw (divCpu (2 ^ 31) (2 ^ 32 - 1))).xreg 3 = 2 ^ 64 - 2 ^ 31 ∧
    (instr_remw (divCpu (2 ^ 31) (2 ^ 32 - 1))).xreg 3 = 0 := by
  refine ⟨?_, ?_, ?_, ?_, ?_, ?_⟩
  · exact ((C4_div_rem_special_cases (divCpu 7 0)).2.1 (by decide)).1
  · have := ((C4_div_rem_special_cases (divCpu 7 0)).2.1 (by decide)).2
    simpa using this
  · exact ((C4_div_rem_special_cases (divCpu (2 ^ 63) (2 ^ 64 - 1))).2.2.1
      (by decide) (by decide)).1
  · exact ((C4_div_rem_special_cases (divCpu (2 ^ 63) (2 ^ 64 - 1))).2.2.1
      (by decide) (by decide)).2
  · exact ((C4_div_rem_special_cases (divCpu (2 ^ 31) (2 ^ 32 - 1))).2.2.2.2
      (by decide) (by decide)).1
  · exact ((C4_div_rem_special_cases (divCpu (2 ^ 31) (2 ^ 32 - 1))).2.2.2.2
      (by decide) (by decide)).2

/-! ### C3 — store-conditional semantics -/

/-- A hart about to execute SC.W at the reserved address 0x1000 whose
store faults: translation is off, the bus is entirely unmapped. -/
def scFaultCpu : Cpu :=
  { xreg := fun j => if j = 1 then 4096 else if j = 2 then 7 else 0,
    pc := 0, mode := MACHINE, exc := ⟨.NoException, 0⟩, csr := fun _ => 0,
    reservation := 4096, bus := ⟨fun _ => 0, fun _ => false⟩,
    instr := ⟨0, 0, 1, 2, 3, 0⟩ }

/-- C3 counterexample: when the SC.W store itself faults, the executor
returns early — the reservation is NOT cleared (it still holds 0x1000, not
the all-ones invalid value) and rd is not written, refuting the claim that
the reservation is cleared in all cases. -/
theorem C3_sc_fault_keeps_reservation :
    (instr_scw scFaultCpu).reservation = 4096 ∧
    (instr_scw scFaultCpu).reservation ≠ 2 ^ 64 - 1 ∧
    (instr_scw scFaultCpu).exc.exception = Exception.StoreAMOAccessFault ∧
    (instr_scw scFaultCpu).xreg 3 = 0 := by
  refine ⟨by decide, by decide, by decide, by decide⟩

/-- C3 amended: SC.W and SC.D perform the store and set rd to 0 iff the
reservation equals the rs1 address and the store goes through; with a
non-matching reservation no store happens, rd is set to 1; in both of those
cases the reservation is cleared afterwards — but when the store itself
faults the executor returns early with the exception surfaced, leaving rd,
the reservation and the rest of the register file unchanged. -/
theorem C3_sc_semantics (c : Cpu) :
    (c.reservation = c.xreg c.instr.rs1 →
      (write_cpu c (c.xreg c.instr.rs1) 32 (c.xreg c.instr.rs2)).1 = true →
      (instr_scw c).xreg c.instr.rd = 0 ∧ (instr_scw c).reservation = 2 ^ 64 - 1 ∧
      (instr_scw c).bus = (write_cpu c (c.xreg c.instr.rs1) 32 (c.xreg c.instr.rs2)).2.bus) ∧
    (c.reservation ≠ c.xreg c.instr.rs1 →
      (instr_scw c).xreg c.instr.rd = 1 ∧ (instr_scw c).reservation = 2 ^ 64 - 1 ∧
      (instr_scw c).bus = c.bus ∧ (instr_scw c).exc = c.exc) ∧
    (c.reservation = c.xreg c.instr.rs1 →
      (write_cpu c (c.xreg c.instr.rs1) 32 (c.xreg c.instr.rs2)).1 = false →
      (instr_scw c).xreg = c.xreg ∧ (instr_scw c).reservation = c.reservation ∧
      (instr_scw c).exc.exception ≠ .NoException) ∧
    (c.reservation = c.xreg c.instr.rs1 →
      (write_cpu c (c.xreg c.instr.rs1) 64 (c.xreg c.instr.rs2)).1 = true →
      (instr_scd c).xreg c.instr.rd = 0 ∧ (instr_scd c).reservation = 2 ^ 64 - 1 ∧
      (instr_scd c).bus = (write_cpu c (c.xreg c.instr.rs1) 64 (c.xreg c.instr.rs2)).2.bus) ∧
    (c.reservation ≠ c.xreg c.instr.rs1 →
      (instr_scd c).xreg c.instr.rd = 1 ∧ (instr_scd c).reservation = 2 ^ 64 - 1 ∧
      (instr_scd c).bus = c.bus ∧ (instr_scd c).exc = c.exc) ∧
    (c.reservation = c.xreg c.instr.rs1 →
      (write_cpu c (c.xreg c.instr.rs1) 64 (c.xreg c.instr.rs2)).1 = false →
      (instr_scd c).xreg = c.xreg ∧ (instr_scd c).reservation = c.reservation ∧
      (instr_scd c).exc.exception ≠ .NoException) := by
  refine ⟨fun hr hw => ?_, fun hr => ?_, fun hr hw => ?_,
    fun hr hw => ?_, fun hr => ?_, fun hr hw => ?_⟩
  · unfold instr_scw
    dsimp only
    rw [if_pos hr, hw]
    norm_num [setx_get, setx]
  · unfold instr_scw
    dsimp only
    rw [if_neg hr]
    norm_num [setx_get, setx]
  · unfold instr_scw
    dsimp only
    rw [if_pos hr, hw]
    norm_num
    exact ⟨(write_cpu_frame c (c.xreg c.instr.rs1) 32 (c.xreg c.instr.rs2)).1,
      (write_cpu_frame c (c.xreg c.instr.rs1) 32 (c.xreg c.instr.rs2)).2,
      write_cpu_false_exc c (c.xreg c.instr.rs1) 32 (c.xreg c.instr.rs2) hw⟩
  · unfold instr_scd
    dsimp only
    rw [if_pos hr, hw]
    norm_num [setx_get, setx]
  · unfold instr_scd
    dsimp only
    rw [if_neg hr]
    norm_num [setx_get, setx]
  · unfold instr_scd
    dsimp only
    rw [if_pos hr, hw]
    norm_num
    exact ⟨(write_cpu_frame c (c.xreg c.instr.rs1) 64 (c.xreg c.instr.rs2)).1,
      (write_cpu_frame c (c.xreg c.instr.rs1) 64 (c.xreg c.instr.rs2)).2,
      write_cpu_false_exc c (c.xreg c.instr.rs1) 64 (c.xreg c.instr.rs2) hw⟩

/-- A hart executing SC at address 0x1000 over a fully mapped bus. -/
def scOkCpu (resv : Nat) : Cpu :=
  { xreg := fun j => if j = 1 then 4096 else if j = 2 then 7 else 0,
    pc := 0, mode := MACHINE, exc := ⟨.NoException, 0⟩, csr := fun _ => 0,
    reservation := resv, bus := ⟨fun _ => 0, fun _ => true⟩,
    instr := ⟨0, 0, 1, 2, 3, 0⟩ }

/-- Witness for the amended C3: a matching reservation with a successful
store (rd = 0, reservation invalidated), a non-matching reservation
(rd = 1, reservation invalidated), and a matching reservation with a
faulting store (register file and reservation untouched). -/
theorem C3_sc_semantics_witness :
    ((instr_scw (scOkCpu 4096)).xreg 3 = 0 ∧
      (instr_scw (scOkCpu 4096)).reservation = 2 ^ 64 - 1) ∧
    ((instr_scw (scOkCpu 8)).xreg 3 = 1 ∧
      (instr_scw (scOkCpu 8)).reservation = 2 ^ 64 - 1) ∧
    ((instr_scw scFaultCpu).xreg = scFaultCpu.xreg ∧
      (instr_scw scFaultCpu).reservation = scFaultCpu.reservation) := by
  refine ⟨⟨?_, ?_⟩, ⟨?_, ?_⟩, ⟨?_, ?_⟩⟩
  · exact ((C3_sc_semantics (scOkCpu 4096)).1 (by decide) (by decide)).1
  · exact ((C3_sc_semantics (scOkCpu 4096)).1 (by decide) (by decide)).2.1
  · exact ((C3_sc_semantics (scOkCpu 8)).2.1 (by decide)).1
  · exact ((C3_sc_semantics (scOkCpu 8)).2.1 (by decide)).2.1
  · exact ((C3_sc_semantics scFaultCpu).2.2.1 (by decide) (by decide)).1
  · exact ((C3_sc_semantics scFaultCpu).2.2.1 (by decide) (by decide)).2.1

/-! ### C1 — traps and the load reservation -/

/-- A machine-mode hart with a pending Breakpoint trap and a live
reservation on address 0x2000; x1 holds the reserved address. -/
def trapCpu : Cpu :=
  { xreg := fun j => if j = 1 then 8192 else if j = 2 then 42 else 0,
    pc := 256, mode := MACHINE, exc := ⟨.Breakpoint, 0⟩, csr := fun _ => 0,
    reservation := 8192, bus := ⟨fun _ => 0, fun _ => true⟩,
    instr := ⟨0, 0, 1, 2, 5, 0⟩ }

/-- The hart after the driver routed the Breakpoint through the trap
engine (a `Requested` outcome, so the loop continues with a clean slot). -/
def trapCpuAfter : Cpu := ((get_trap trapCpu 256).getD (false, trapCpu)).2

/-- C1 counterexample: after a trap is taken the reservation still holds
0x2000, and an SC.W at that address succeeds — rd is set to 0, not 1 as
the claim requires. -/
theorem C1_sc_succeeds_after_trap :
    trapCpuAfter.exc.exception = Exception.NoException ∧
    trapCpuAfter.reservation = 8192 ∧
    (instr_scw trapCpuAfter).xreg 5 = 0 := by
  refine ⟨by decide, by decide, by decide⟩

/-- C1 amended: the trap engine never touches the load reservation — for
every trap taken, the reservation after `handle_exception` equals the
reservation before it, so a store-conditional executed after the trap
still succeeds at the reserved address (shown at the concrete post-trap
hart) and fails only at other addresses. -/
theorem C1_trap_keeps_reservation :
    (∀ c epc, ((handle_exception c epc).map
        (fun p => p.2.reservation)).getD c.reservation = c.reservation) ∧
    (instr_scw trapCpuAfter).xreg 5 = 0 ∧
    (instr_scw trapCpuAfter).reservation = 2 ^ 64 - 1 := by
  refine ⟨fun c epc => ?_, by decide, by decide⟩
  unfold handle_exception
  dsimp only
  repeat' split
  all_goals simp [write_csr, clear_csr_bits, set_csr_bits, read_csr]

/-! ### C8 — outcome classification and the driver loop -/

/-- C8: the trap engine classifies the misaligned faults, the access
faults and illegal instruction as `Fatal`; breakpoint and the three
environment calls as `Requested`; the three page faults as `Invisible`;
and in the driver's trap tail only a `Fatal` outcome returns false
(halting the loop), while any other outcome resets the exception slot to
`NoException` and returns true. -/
theorem C8_trap_outcomes :
    (exc_trap .InstructionAddressMisaligned = .Fatal ∧
     exc_trap .LoadAddressMisaligned = .Fatal ∧
     exc_trap .StoreAMOAddressMisaligned = .Fatal ∧
     exc_trap .InstructionAccessFault = .Fatal ∧
     exc_trap .LoadAccessFault = .Fatal ∧
     exc_trap .StoreAMOAccessFault = .Fatal ∧
     exc_trap .IllegalInstruction = .Fatal) ∧
    (exc_trap .Breakpoint = .Requested ∧
     exc_trap .EnvironmentCallFromUMode = .Requested ∧
     exc_trap .EnvironmentCallFromSMode = .Requested ∧
     exc_trap .EnvironmentCallFromMMode = .Requested) ∧
    (exc_trap .InstructionPageFault = .Invisible ∧
     exc_trap .LoadPageFault = .Invisible ∧
     exc_trap .StoreAMOPageFault = .Invisible) ∧
    (∀ c epc t c2, handle_exception c epc = some (t, c2) →
      (t = Trap.Fatal → get_trap c epc = some (false, c2)) ∧
      (t ≠ Trap.Fatal →
        get_trap c epc = some (true, { c2 with exc := ⟨.NoException, c2.exc.value⟩ }))) := by
  refine ⟨⟨rfl, rfl, rfl, rfl, rfl, rfl, rfl⟩, ⟨rfl, rfl, rfl, rfl⟩, ⟨rfl, rfl, rfl⟩,
    fun c epc t c2 h => ⟨fun hf => ?_, fun hf => ?_⟩⟩
  · unfold get_trap
    rw [h, hf]
    simp
  · unfold get_trap
    rw [h]
    simp [hf]

/-- A supervisor-mode hart with a pending load page fault (medeleg clear,
so the trap targets machine mode and is classified `Invisible`). -/
def c8cpu : Cpu :=
  { xreg := fun _ => 0, pc := 128, mode := SUPERVISOR,
    exc := ⟨.LoadPageFault, 20480⟩, csr := fun _ => 0, reservation := 0,
    bus := ⟨fun _ => 0, fun _ => true⟩, instr := ⟨0, 0, 0, 0, 0, 0⟩ }

/-- The outcome and post-trap hart computed by the trap engine at `c8cpu`. -/
def c8post : Trap × Cpu := (handle_exception c8cpu 128).getD (Trap.Fatal, c8cpu)

/-- Witness for C8: at the concrete page-faulting hart the outcome is not
fatal, so the driver tail clears the slot and keeps the loop running. -/
theorem C8_trap_outcomes_witness :
    get_trap c8cpu 128 =
      some (true, { c8post.2 with exc := ⟨Exception.NoException, c8post.2.exc.value⟩ }) :=
  ((C8_trap_outcomes.2.2.2 c8cpu 128 c8post.1 c8post.2 rfl).2 (by decide))

/-! ### C9 — ECALL from supervisor mode and trap delegation -/

theorem and_compl1_even (x : Nat) (hlt : x < 2 ^ 64) (he : x % 2 = 0) :
    x &&& compl64 1 = x := by
  apply Nat.eq_of_testBit_eq
  intro i
  rw [Nat.testBit_and]
  rcases Nat.eq_zero_or_pos i with rfl | hi
  · have hx : x.testBit 0 = false := by
      rw [Nat.testBit_zero]
      simp [he]
    simp [hx]
  · rcases Nat.lt_or_ge i 64 with h64 | h64
    · have hone : (1 : Nat).testBit i = false := by
        rw [show (1 : Nat) = 2 ^ 1 - 1 from rfl, Nat.testBit_two_pow_sub_one]
        simp only [decide_eq_false_iff_not]
        omega
      have hm : (compl64 1).testBit i = true := by
        unfold compl64
        rw [Nat.testBit_xor, Nat.testBit_two_pow_sub_one, hone]
        simp [h64]
      rw [hm, Bool.and_true]
    · have hx : x.testBit i = false :=
        Nat.testBit_eq_false_of_lt
          (lt_of_lt_of_le hlt (Nat.pow_le_pow_right (by norm_num) h64))
      simp [hx]

/-- C9: ECALL executed in supervisor mode raises
`EnvironmentCallFromSMode` (cause 9); with bit 9 of medeleg set and bit 9
of sedeleg clear the trap is delegated to S-mode — scause is written with
9, sepc with the PC of the ECALL instruction, and the hart ends up in
supervisor mode; with bit 9 of medeleg clear it is handled in M-mode with
mcause = 9. -/
theorem C9_ecall_delegation (c : Cpu) (epc : Nat)
    (hm : c.mode = SUPERVISOR) (hepc2 : epc % 2 = 0) (hepc64 : epc < 2 ^ 64) :
    ((read_csr c MEDELEG >>> 9) % 2 = 1 → (read_csr c SEDELEG >>> 9) % 2 = 0 →
      ∃ c2, handle_exception (instr_ecall c) epc = some (Trap.Requested, c2) ∧
        read_csr c2 SCAUSE = 9 ∧ read_csr c2 SEPC = epc ∧ c2.mode = SUPERVISOR) ∧
    ((read_csr c MEDELEG >>> 9) % 2 = 0 →
      ∃ c2, handle_exception (instr_ecall c) epc = some (Trap.Requested, c2) ∧
        read_csr c2 MCAUSE = 9 ∧ c2.mode = MACHINE) := by
  have hec : instr_ecall c =
      { c with exc := ⟨.EnvironmentCallFromSMode, (c.pc + 2 ^ 64 - 4) % 2 ^ 64⟩ } := by
    unfold instr_ecall
    rw [hm]
    norm_num [SUPERVISOR, MACHINE]
  unfold read_csr
  constructor
  · intro h1 h2
    rw [hec]
    unfold handle_exception
    dsimp only [read_csr, excCode]
    have hg1 : ¬(c.csr MEDELEG >>> 9 % 2 = 0) := by omega
    rw [if_neg hg1, if_pos h2]
    dsimp only
    rw [if_pos rfl]
    refine ⟨_, rfl, ?_, ?_, rfl⟩
    · simp [write_csr, clear_csr_bits, set_csr_bits, read_csr, SSTATUS, SEPC, SCAUSE, STVAL]
    · simp only [write_csr, clear_csr_bits, set_csr_bits, read_csr]
      norm_num [SSTATUS, SEPC, SCAUSE, STVAL]
      rw [and_compl1_even epc hepc64 hepc2]
      exact Nat.mod_eq_of_lt hepc64
  · intro h1
    rw [hec]
    unfold handle_exception
    dsimp only [read_csr, excCode]
    rw [if_pos h1]
    dsimp only
    rw [if_neg (by decide), if_pos rfl]
    refine ⟨_, rfl, ?_, rfl⟩
    simp [write_csr, clear_csr_bits, set_csr_bits, read_csr, MSTATUS, MEPC, MCAUSE, MTVAL]

/-- A supervisor-mode hart about to execute ECALL at pc 0x80000004 (the pc
has already advanced past the 4-byte instruction), with cause 9 delegated
to S-mode. -/
def ecallCpuS : Cpu :=
  { xreg := fun _ => 0, pc := 2147483656, mode := SUPERVISOR,
    exc := ⟨.NoException, 0⟩,
    csr := fun i => if i = MEDELEG then 512 else 0, reservation := 0,
    bus := ⟨fun _ => 0, fun _ => true⟩, instr := ⟨115, 115, 0, 0, 0, 0⟩ }

/-- The same hart with medeleg clear, so the ECALL traps to M-mode. -/
def ecallCpuM : Cpu :=
  { xreg := fun _ => 0, pc := 2147483656, mode := SUPERVISOR,
    exc := ⟨.NoException, 0⟩, csr := fun _ => 0, reservation := 0,
    bus := ⟨fun _ => 0, fun _ => true⟩, instr := ⟨115, 115, 0, 0, 0, 0⟩ }

/-- Witness for C9 at the concrete ECALL pc 0x80000004: delegated S-mode
entry and non-delegated M-mode entry. -/
theorem C9_ecall_delegation_witness :
    (∃ c2, handle_exception (instr_ecall ecallCpuS) 2147483652 =
        some (Trap.Requested, c2) ∧
      read_csr c2 SCAUSE = 9 ∧ read_csr c2 SEPC = 2147483652 ∧
      c2.mode = SUPERVISOR) ∧
    (∃ c2, handle_exception (instr_ecall ecallCpuM) 2147483652 =
        some (Trap.Requested, c2) ∧
      read_csr c2 MCAUSE = 9 ∧ c2.mode = MACHINE) :=
  ⟨(C9_ecall_delegation ecallCpuS 2147483652 rfl (by decide) (by decide)).1
      (by decide) (by decide),
   (C9_ecall_delegation ecallCpuM 2147483652 rfl (by decide) (by decide)).2
      (by decide)⟩

/-! ### C10 — fetch rejects the all-zero halfword before decode -/

/-- C10: when the translated pc reads successfully and the fetched word
has its two low bits different from 0b11 and its low 16 bits all zero,
fetch sets the pending exception to `IllegalInstruction` and reports
failure without advancing the pc. -/
theorem C10_fetch_rejects_zero_halfword (c : Cpu)
    (htr : (addr_translate c c.pc .Access_Instr).2.exc.exception = .NoException)
    (hv : c.bus.valid (addr_translate c c.pc .Access_Instr).1 = true)
    (hlow : (c.bus.mem (addr_translate c c.pc .Access_Instr).1 % 2 ^ 32) % 4 ≠ 3)
    (hz : (c.bus.mem (addr_translate c c.pc .Access_Instr).1 % 2 ^ 32) % 2 ^ 16 = 0) :
    (fetch c).1 = false ∧ (fetch c).2.exc.exception = .IllegalInstruction ∧
    (fetch c).2.pc = c.pc := by
  obtain ⟨-, hbus, -, -, hpc, -⟩ := addr_translate_frame c c.pc .Access_Instr
  unfold fetch
  dsimp only
  rw [if_neg (by simp [htr])]
  unfold read_bus
  rw [hbus, if_pos hv]
  dsimp only
  rw [if_neg (by simp [htr]), if_pos hlow, if_pos hz]
  exact ⟨rfl, rfl, hpc⟩

/-- A machine-mode hart (translation off) whose pc points at the word
0x7d0000: low two bits 00, low halfword zero. -/
def zeroFetchCpu : Cpu :=
  { xreg := fun _ => 0, pc := 256, mode := MACHINE, exc := ⟨.NoException, 0⟩,
    csr := fun _ => 0, reservation := 0,
    bus := ⟨fun a => if a = 256 then 8192000 else 0, fun _ => true⟩,
    instr := ⟨0, 0, 0, 0, 0, 0⟩ }

/-- Witness for C10 at the concrete word 0x7d0000. -/
theorem C10_fetch_rejects_zero_halfword_witness :
    (fetch zeroFetchCpu).1 = false ∧
    (fetch zeroFetchCpu).2.exc.exception = Exception.IllegalInstruction ∧
    (fetch zeroFetchCpu).2.pc = zeroFetchCpu.pc :=
  C10_fetch_rejects_zero_halfword zeroFetchCpu (by decide) (by decide)
    (by decide) (by decide)

end RV
